import Mathlib

/-!
Formal model of `hyper_param/hyperopt_optimize.py`.

The script orchestrates a TPE hyperparameter search: it declares a search
space of hyperopt distributions, reads configuration from environment
variables, runs one batch of trials through an external optimizer, and plots
model architectures.  The definitions below embed the script and its
immediate contracts; machine floats are modelled as exact rationals (and
reals where the exponential is involved).
-/

set_option maxHeartbeats 1000000

/-! ## Environment variables and Python `int()` conversion -/

/-- The process environment, as the association list iterated by
`os.environ.items()`; `os.environ.get` is `List.lookup`. -/
abbrev Env := List (String × String)

/-- A value that is either a Python `int` or a Python `str`, as produced by
`os.environ.get('HKS_MAX_EVALS', 5)`: the default is the `int` `5`, a present
variable stays a `str`. -/
inductive PyVal where
  | int (n : ℤ)
  | str (s : String)
  deriving DecidableEq

/-- Line 19: `MAX_EVALS = os.environ.get('HKS_MAX_EVALS', 5)`. -/
def MAX_EVALS (env : Env) : PyVal :=
  match env.lookup "HKS_MAX_EVALS" with
  | some s => PyVal.str s
  | Option.none => PyVal.int 5

/-- Line 22: `WORKING_ENVIRONMENT = os.environ.get('HKS_ENVIRONMENT', 'paperspace')`. -/
def WORKING_ENVIRONMENT (env : Env) : String :=
  (env.lookup "HKS_ENVIRONMENT").getD "paperspace"

/-- Digit-string to number, for the base-10 part of Python `int()`:
a nonempty all-digit character list denotes its decimal value. -/
def decDigits? (cs : List Char) : Option ℕ :=
  if cs ≠ [] ∧ cs.all (fun c => c.isDigit) then
    some (cs.foldl (fun a c => 10 * a + (c.toNat - 48)) 0)
  else
    Option.none

/-- Strip whitespace from both ends of a character list, as Python `int()`
does to its string argument before parsing. -/
def stripWs (cs : List Char) : List Char :=
  ((cs.dropWhile Char.isWhitespace).reverse.dropWhile Char.isWhitespace).reverse

/-- Python `int(s)` for a string argument: strip surrounding whitespace,
allow one optional sign, then require decimal digits; anything else raises
`ValueError`, modelled as `Option.none`. -/
def pyIntOfString? (s : String) : Option ℤ :=
  match stripWs s.toList with
  | [] => Option.none
  | c :: rest =>
    if c = '-' then (decDigits? rest).map (fun n => -(n : ℤ))
    else if c = '+' then (decDigits? rest).map (fun n => (n : ℤ))
    else (decDigits? (c :: rest)).map (fun n => (n : ℤ))

/-- Python `int(x)` on the value held by `MAX_EVALS`: an `int` passes through,
a `str` is parsed; a parse failure is the raised `ValueError`, modelled as
`Except.error` carrying the CPython message. -/
def pyInt : PyVal → Except String ℤ
  | PyVal.int n => Except.ok n
  | PyVal.str s =>
    match pyIntOfString? s with
    | some n => Except.ok n
    | Option.none => Except.error ("invalid literal for int() with base 10: " ++ s)

/-! ## The declared search space (lines 25-80) -/

/-- A constant occurring as a categorical option in the space:
string, boolean or integer literal, or Python `None`. -/
inductive HpVal where
  | str (s : String)
  | bool (b : Bool)
  | int (n : ℤ)
  | none
  deriving DecidableEq

/-- A hyperopt pyll expression as used in this script: a literal option,
`hp.uniform`, `hp.loguniform`, `hp.quniform`, or `hp.choice` over a list of
sub-expressions (which is how hyperopt nests conditional distributions). -/
inductive Hp where
  | lit (v : HpVal)
  | uniform (label : String) (lo hi : ℚ)
  | loguniform (label : String) (lo hi : ℚ)
  | quniform (label : String) (lo hi q : ℚ)
  | choice (label : String) (options : List Hp)

/-- The `space` dictionary, entry for entry in source order; decimal literals
are written as exact rationals. -/
def space : List (String × Hp) :=
  [ ("lr_rate_mult", Hp.loguniform "lr_rate_mult" (-(1/2)) (1/2)),
    ("l2_weight_reg_mult", Hp.loguniform "l2_weight_reg_mult" (-(13/10)) (13/10)),
    ("batch_size", Hp.quniform "batch_size" 100 450 5),
    ("optimizer", Hp.choice "optimizer"
      [Hp.lit (HpVal.str "Adam"), Hp.lit (HpVal.str "Nadam"), Hp.lit (HpVal.str "RMSprop")]),
    ("coarse_labels_weight", Hp.uniform "coarse_labels_weight" (1/10) (7/10)),
    ("conv_dropout_drop_proba", Hp.uniform "conv_dropout_proba" 0 (35/100)),
    ("fc_dropout_drop_proba", Hp.uniform "fc_dropout_proba" 0 (6/10)),
    ("use_BN", Hp.choice "use_BN" [Hp.lit (HpVal.bool false), Hp.lit (HpVal.bool true)]),
    ("first_conv", Hp.choice "first_conv"
      [Hp.lit HpVal.none,
       Hp.choice "first_conv_size" [Hp.lit (HpVal.int 3), Hp.lit (HpVal.int 4)]]),
    ("residual", Hp.choice "residual"
      [Hp.lit HpVal.none,
       Hp.quniform "residual_units" (1 - 499/1000) (4 + 499/1000) 1]),
    ("conv_hiddn_units_mult", Hp.loguniform "conv_hiddn_units_mult" (-(6/10)) (6/10)),
    ("nb_conv_pool_layers", Hp.choice "nb_conv_pool_layers"
      [Hp.lit (HpVal.int 2), Hp.lit (HpVal.int 3)]),
    ("conv_pool_res_start_idx", Hp.quniform "conv_pool_res_start_idx" 0 2 1),
    ("pooling_type", Hp.choice "pooling_type"
      [Hp.lit (HpVal.str "max"), Hp.lit (HpVal.str "avg"),
       Hp.lit (HpVal.str "all_conv"), Hp.lit (HpVal.str "inception")]),
    ("conv_kernel_size", Hp.quniform "conv_kernel_size" 2 4 1),
    ("res_conv_kernel_size", Hp.quniform "res_conv_kernel_size" 2 4 1),
    ("fc_units_1_mult", Hp.loguniform "fc_units_1_mult" (-(6/10)) (6/10)),
    ("one_more_fc", Hp.choice "one_more_fc"
      [Hp.lit HpVal.none, Hp.loguniform "fc_units_2_mult" (-(6/10)) (6/10)]),
    ("activation", Hp.choice "activation"
      [Hp.lit (HpVal.str "relu"), Hp.lit (HpVal.str "elu")]) ]

/-! ## Sampling semantics of the hyperopt distributions -/

/-- Round to the nearest integer, ties to even: the rounding `np.round`
performs inside hyperopt's `quniform` sampler. -/
def roundHE (y : ℚ) : ℤ :=
  if y - (Int.floor y : ℚ) < 1/2 then Int.floor y
  else if (1:ℚ)/2 < y - (Int.floor y : ℚ) then Int.floor y + 1
  else if Int.floor y % 2 = 0 then Int.floor y else Int.floor y + 1

/-- A value a sampler can return: a number, a string, a boolean, or `None`. -/
inductive SampleVal where
  | num (v : ℝ)
  | int (n : ℤ)
  | str (s : String)
  | bool (b : Bool)
  | none

/-- The sample a literal option denotes. -/
def HpVal.toSample : HpVal → SampleVal
  | HpVal.str s => SampleVal.str s
  | HpVal.bool b => SampleVal.bool b
  | HpVal.int n => SampleVal.int n
  | HpVal.none => SampleVal.none

/-- Modelled from the spec: the sampling semantics of the external hyperopt
distributions, as the spec describes them (continuous uniform on the declared
interval; log-uniform is the exponential of a uniformly sampled exponent;
quniform is a uniform draw divided by the step, rounded by `np.round`, and
multiplied back; choice picks one of the listed options).  Rational draws
stand in for machine floats. -/
inductive Samples : Hp → SampleVal → Prop where
  | lit (v : HpVal) : Samples (Hp.lit v) v.toSample
  | uniform {lbl : String} {lo hi : ℚ} {t : ℝ}
      (h1 : (lo : ℝ) ≤ t) (h2 : t ≤ (hi : ℝ)) :
      Samples (Hp.uniform lbl lo hi) (SampleVal.num t)
  | loguniform {lbl : String} {lo hi : ℚ} {t : ℝ}
      (h1 : (lo : ℝ) ≤ t) (h2 : t ≤ (hi : ℝ)) :
      Samples (Hp.loguniform lbl lo hi) (SampleVal.num (Real.exp t))
  | quniform {lbl : String} {lo hi q : ℚ} {t : ℚ}
      (h1 : lo ≤ t) (h2 : t ≤ hi) :
      Samples (Hp.quniform lbl lo hi q) (SampleVal.num (((roundHE (t / q) : ℚ) * q : ℚ) : ℝ))
  | choice {lbl : String} {opts : List Hp} {v : SampleVal}
      (o : Hp) (ho : o ∈ opts) (h : Samples o v) :
      Samples (Hp.choice lbl opts) v

/-- Declared-bounds predicate, following the spec wording: a sampled value is
within bounds when a continuous uniform value lies in the declared interval, a
log-uniform value lies between the exponentials of the declared exponent
bounds, a quantized value is an integer multiple of the step lying within the
declared interval, and a categorical value is within bounds for one of the
declared options. -/
inductive InBounds : Hp → SampleVal → Prop where
  | lit (v : HpVal) : InBounds (Hp.lit v) v.toSample
  | uniform {lbl : String} {lo hi : ℚ} {v : ℝ}
      (h1 : (lo : ℝ) ≤ v) (h2 : v ≤ (hi : ℝ)) :
      InBounds (Hp.uniform lbl lo hi) (SampleVal.num v)
  | loguniform {lbl : String} {lo hi : ℚ} {v : ℝ}
      (h1 : Real.exp (lo : ℝ) ≤ v) (h2 : v ≤ Real.exp (hi : ℝ)) :
      InBounds (Hp.loguniform lbl lo hi) (SampleVal.num v)
  | quniform {lbl : String} {lo hi q : ℚ} {v : ℚ} (k : ℤ)
      (hk : v = (k : ℚ) * q) (h1 : lo ≤ v) (h2 : v ≤ hi) :
      InBounds (Hp.quniform lbl lo hi q) (SampleVal.num (v : ℝ))
  | choice {lbl : String} {opts : List Hp} {v : SampleVal}
      (o : Hp) (ho : o ∈ opts) (h : InBounds o v) :
      InBounds (Hp.choice lbl opts) v

/-- A distribution whose quantization cannot round outside the declared
interval: trivial for everything except `quniform`, where the bounds must
absorb the half-step rounding error, and hereditary through `choice`. -/
inductive Good : Hp → Prop where
  | lit (v : HpVal) : Good (Hp.lit v)
  | uniform (lbl : String) (lo hi : ℚ) : Good (Hp.uniform lbl lo hi)
  | loguniform (lbl : String) (lo hi : ℚ) : Good (Hp.loguniform lbl lo hi)
  | quniform (lbl : String) (lo hi q : ℚ) (hq : 0 < q)
      (h1 : ∀ k : ℤ, lo / q - 1/2 ≤ (k : ℚ) → lo ≤ (k : ℚ) * q)
      (h2 : ∀ k : ℤ, (k : ℚ) ≤ hi / q + 1/2 → (k : ℚ) * q ≤ hi) :
      Good (Hp.quniform lbl lo hi q)
  | choice (lbl : String) (opts : List Hp) (h : ∀ o ∈ opts, Good o) :
      Good (Hp.choice lbl opts)

/-! ## Helper lemmas on rounding and the space -/

theorem roundHE_ge (y : ℚ) : y - 1/2 ≤ (roundHE y : ℚ) := by
  have h1 : ((Int.floor y : ℤ) : ℚ) ≤ y := Int.floor_le y
  have h2 : y < ((Int.floor y : ℤ) : ℚ) + 1 := Int.lt_floor_add_one y
  unfold roundHE
  split_ifs <;> push_cast <;> linarith

theorem roundHE_le (y : ℚ) : (roundHE y : ℚ) ≤ y + 1/2 := by
  have h1 : ((Int.floor y : ℤ) : ℚ) ≤ y := Int.floor_le y
  have h2 : y < ((Int.floor y : ℤ) : ℚ) + 1 := Int.lt_floor_add_one y
  unfold roundHE
  split_ifs <;> push_cast <;> linarith

theorem samples_inBounds_of_good {p : Hp} (hg : Good p) :
    ∀ {v : SampleVal}, Samples p v → InBounds p v := by
  induction hg with
  | lit v =>
    intro w hs
    cases hs
    exact InBounds.lit v
  | uniform lbl lo hi =>
    intro w hs
    cases hs with
    | uniform h1 h2 => exact InBounds.uniform h1 h2
  | loguniform lbl lo hi =>
    intro w hs
    cases hs with
    | loguniform h1 h2 =>
      exact InBounds.loguniform (Real.exp_le_exp.mpr h1) (Real.exp_le_exp.mpr h2)
  | quniform lbl lo hi q hq h1 h2 =>
    intro w hs
    cases hs with
    | quniform ht1 ht2 =>
      rename_i t
      have hdiv1 : lo / q ≤ t / q := by gcongr
      have hdiv2 : t / q ≤ hi / q := by gcongr
      have hk1 : lo / q - 1/2 ≤ ((roundHE (t / q) : ℤ) : ℚ) := by
        have := roundHE_ge (t / q)
        linarith
      have hk2 : ((roundHE (t / q) : ℤ) : ℚ) ≤ hi / q + 1/2 := by
        have := roundHE_le (t / q)
        linarith
      exact InBounds.quniform (roundHE (t / q)) rfl
        (h1 (roundHE (t / q)) hk1) (h2 (roundHE (t / q)) hk2)
  | choice lbl opts h ih =>
    intro w hs
    cases hs with
    | choice o ho hso => exact InBounds.choice o ho (ih o ho hso)

theorem good_of_mem_space : ∀ k p, (k, p) ∈ space → Good p := by
  have hq1 : Good (Hp.quniform "batch_size" 100 450 5) := by
    refine Good.quniform _ _ _ _ (by norm_num) ?_ ?_
    · intro k hk
      have h39 : (39 : ℤ) ≤ 2 * k := by exact_mod_cast (by linarith : (39 : ℚ) ≤ 2 * (k : ℚ))
      have h20 : (20 : ℤ) ≤ k := by omega
      have : (20 : ℚ) ≤ (k : ℚ) := by exact_mod_cast h20
      linarith
    · intro k hk
      have h181 : 2 * k ≤ (181 : ℤ) := by exact_mod_cast (by linarith : 2 * (k : ℚ) ≤ (181 : ℚ))
      have h90 : k ≤ (90 : ℤ) := by omega
      have : (k : ℚ) ≤ (90 : ℚ) := by exact_mod_cast h90
      linarith
  have hq2 : Good (Hp.quniform "residual_units" (1 - 499/1000) (4 + 499/1000) 1) := by
    refine Good.quniform _ _ _ _ (by norm_num) ?_ ?_
    · intro k hk
      have h1 : (1 : ℤ) ≤ 1000 * k := by
        exact_mod_cast (by linarith : (1 : ℚ) ≤ 1000 * (k : ℚ))
      have hk1 : (1 : ℤ) ≤ k := by omega
      have : (1 : ℚ) ≤ (k : ℚ) := by exact_mod_cast hk1
      linarith
    · intro k hk
      have h1 : 1000 * k ≤ (4999 : ℤ) := by
        exact_mod_cast (by linarith : 1000 * (k : ℚ) ≤ (4999 : ℚ))
      have hk4 : k ≤ (4 : ℤ) := by omega
      have : (k : ℚ) ≤ (4 : ℚ) := by exact_mod_cast hk4
      linarith
  have hq3 : Good (Hp.quniform "conv_pool_res_start_idx" 0 2 1) := by
    refine Good.quniform _ _ _ _ (by norm_num) ?_ ?_
    · intro k hk
      have h1 : (-1 : ℤ) ≤ 2 * k := by
        exact_mod_cast (by linarith : (-1 : ℚ) ≤ 2 * (k : ℚ))
      have hk0 : (0 : ℤ) ≤ k := by omega
      have : (0 : ℚ) ≤ (k : ℚ) := by exact_mod_cast hk0
      linarith
    · intro k hk
      have h1 : 2 * k ≤ (5 : ℤ) := by exact_mod_cast (by linarith : 2 * (k : ℚ) ≤ (5 : ℚ))
      have hk2 : k ≤ (2 : ℤ) := by omega
      have : (k : ℚ) ≤ (2 : ℚ) := by exact_mod_cast hk2
      linarith
  have hq4 : ∀ lbl, Good (Hp.quniform lbl 2 4 1) := by
    intro lbl
    refine Good.quniform _ _ _ _ (by norm_num) ?_ ?_
    · intro k hk
      have h1 : (3 : ℤ) ≤ 2 * k := by exact_mod_cast (by linarith : (3 : ℚ) ≤ 2 * (k : ℚ))
      have hk2 : (2 : ℤ) ≤ k := by omega
      have : (2 : ℚ) ≤ (k : ℚ) := by exact_mod_cast hk2
      linarith
    · intro k hk
      have h1 : 2 * k ≤ (9 : ℤ) := by exact_mod_cast (by linarith : 2 * (k : ℚ) ≤ (9 : ℚ))
      have hk4 : k ≤ (4 : ℤ) := by omega
      have : (k : ℚ) ≤ (4 : ℚ) := by exact_mod_cast hk4
      linarith
  intro k p h
  simp only [space, List.mem_cons, List.not_mem_nil, or_false, Prod.mk.injEq] at h
  rcases h with ⟨_, rfl⟩ | ⟨_, rfl⟩ | ⟨_, rfl⟩ | ⟨_, rfl⟩ | ⟨_, rfl⟩ | ⟨_, rfl⟩ | ⟨_, rfl⟩ |
    ⟨_, rfl⟩ | ⟨_, rfl⟩ | ⟨_, rfl⟩ | ⟨_, rfl⟩ | ⟨_, rfl⟩ | ⟨_, rfl⟩ | ⟨_, rfl⟩ | ⟨_, rfl⟩ |
    ⟨_, rfl⟩ | ⟨_, rfl⟩ | ⟨_, rfl⟩ | ⟨_, rfl⟩
  · exact Good.loguniform _ _ _
  · exact Good.loguniform _ _ _
  · exact hq1
  · refine Good.choice _ _ ?_
    intro o ho
    simp only [List.mem_cons, List.not_mem_nil, or_false] at ho
    rcases ho with rfl | rfl | rfl <;> exact Good.lit _
  · exact Good.uniform _ _ _
  · exact Good.uniform _ _ _
  · exact Good.uniform _ _ _
  · refine Good.choice _ _ ?_
    intro o ho
    simp only [List.mem_cons, List.not_mem_nil, or_false] at ho
    rcases ho with rfl | rfl <;> exact Good.lit _
  · refine Good.choice _ _ ?_
    intro o ho
    simp only [List.mem_cons, List.not_mem_nil, or_false] at ho
    rcases ho with rfl | rfl
    · exact Good.lit _
    · refine Good.choice _ _ ?_
      intro o ho
      simp only [List.mem_cons, List.not_mem_nil, or_false] at ho
      rcases ho with rfl | rfl <;> exact Good.lit _
  · refine Good.choice _ _ ?_
    intro o ho
    simp only [List.mem_cons, List.not_mem_nil, or_false] at ho
    rcases ho with rfl | rfl
    · exact Good.lit _
    · exact hq2
  · exact Good.loguniform _ _ _
  · refine Good.choice _ _ ?_
    intro o ho
    simp only [List.mem_cons, List.not_mem_nil, or_false] at ho
    rcases ho with rfl | rfl <;> exact Good.lit _
  · exact hq3
  · refine Good.choice _ _ ?_
    intro o ho
    simp only [List.mem_cons, List.not_mem_nil, or_false] at ho
    rcases ho with rfl | rfl | rfl | rfl <;> exact Good.lit _
  · exact hq4 _
  · exact hq4 _
  · exact Good.loguniform _ _ _
  · refine Good.choice _ _ ?_
    intro o ho
    simp only [List.mem_cons, List.not_mem_nil, or_false] at ho
    rcases ho with rfl | rfl
    · exact Good.lit _
    · exact Good.loguniform _ _ _
  · refine Good.choice _ _ ?_
    intro o ho
    simp only [List.mem_cons, List.not_mem_nil, or_false] at ho
    rcases ho with rfl | rfl <;> exact Good.lit _

/-! ## Configurations and trial results -/

/-- A concrete value inside a sampled configuration dictionary. -/
inductive PlainVal where
  | num (v : ℚ)
  | str (s : String)
  | bool (b : Bool)
  | none
  deriving DecidableEq

/-- A Configuration: a mapping from parameter name to a concrete value,
as the Python dicts the script passes around. -/
abbrev Config := List (String × PlainVal)

/-- Modelled from the spec: a TrialResult records the Configuration used, a
status (ok / failed), the scalar metric of an ok trial, and the diagnostic
text of a failed one (the repo evaluator `optimize_cnn` that builds these is
not under src/). -/
structure TrialResult where
  config : Config
  ok : Bool
  loss : Option ℚ
  diag : Option String
  deriving DecidableEq

/-- Modelled from the spec: the TrialRunner failure boundary.  The evaluator
either returns a metric or raises (modelled as `Except.error` with the
diagnostic text); a raise is caught and becomes a failed TrialResult, so the
call itself always returns. -/
def runTrial (eval : Config → Except String ℚ) (c : Config) : TrialResult :=
  match eval c with
  | Except.ok l => ⟨c, true, some l, Option.none⟩
  | Except.error m => ⟨c, false, Option.none, some m⟩

/-- Modelled from the spec: the SearchLoop of the external optimizer
(`hyper_tune` / hyperopt `fmin`): run exactly `n` further trials, appending
each result to the store; the candidate source stands in for the
TPE suggestion step. -/
def searchLoop (eval : Config → Except String ℚ) (cand : ℕ → Config) :
    ℕ → List TrialResult → List TrialResult
  | 0, store => store
  | n + 1, store => searchLoop eval cand n (store ++ [runTrial eval (cand store.length)])

/-- One fold step of the best-record query: keep the lowest-loss ok trial,
first seen wins on ties. -/
def bestStep (b : Option TrialResult) (r : TrialResult) : Option TrialResult :=
  if r.ok then
    match r.loss with
    | some l =>
      match b with
      | Option.none => some r
      | some b0 =>
        match b0.loss with
        | some l0 => if l < l0 then some r else some b0
        | Option.none => some r
    | Option.none => b
  else b

/-- Modelled from the spec: `best()` returns the BestRecord, the ok-status
trial with the lowest metric, or none when no ok-status trial exists. -/
def best (store : List TrialResult) : Option TrialResult :=
  store.foldl bestStep Option.none

/-! ## run_a_trial (lines 141-155) -/

/-- The argument tuple `run_a_trial` hands to the external `hyper_tune`
optimizer: the objective function, the search space, the suggestion
algorithm, and `max_evals`. -/
structure HyperTuneCall where
  objective : String
  searchSpace : List (String × Hp)
  algo : String
  maxEvals : ℤ

/-- Lines 148-153: `run_a_trial` invokes `hyper_tune(optimize_cnn, space,
algo=tpe.suggest, max_evals=int(MAX_EVALS))`.  The `int` conversion happens
here, when the optimizer is invoked; its `ValueError` propagates as the
error case. -/
def run_a_trial (env : Env) : Except String HyperTuneCall :=
  (pyInt (MAX_EVALS env)).map (fun n => ⟨"optimize_cnn", space, "tpe.suggest", n⟩)

/-! ## Plotting (lines 83-138) -/

/-- Python truthiness of `PLOT_FOLDER_PATH`: `None` and the empty string are
falsy. -/
def truthy : Option String → Bool
  | some s => !(s == "")
  | Option.none => false

/-- Lines 85-90: the output file path of `plot`. -/
def plotFilename (pfp : Option String) (fnamePre : String) : String :=
  if truthy pfp then pfp.getD "" ++ "/" ++ fnamePre ++ ".png" else fnamePre ++ ".png"

/-- The Keras backend global state the script touches: at most one model
built for plotting. -/
structure BackendState where
  model : Option Config
  deriving DecidableEq

/-- An observable effect of the script: a log line, a filesystem action, a
backend action, or the structured JSON dump of a configuration. -/
inductive Event where
  | debug (s : String)
  | info (s : String)
  | warning (s : String)
  | makedirs (path : String)
  | buildModel (cfg : Config)
  | plotFile (filename : String) (cfg : Config)
  | printJson (cfg : Config)
  | clearSession
  | delModel
  deriving DecidableEq

/-- Lines 83-99: `plot` derives the file name, creates the plot folder when
needed, builds the model, writes the diagram, clears the backend session and
deletes the model.  The returned state is the backend state after the call;
`dirExists` stands for `os.path.exists(PLOT_FOLDER_PATH)`. -/
def plot (pfp : Option String) (dirExists : Bool) (hyperspace : Config)
    (fnamePre : String) (_st : BackendState) : List Event × BackendState :=
  let filename := plotFilename pfp fnamePre
  let mkEv : List Event :=
    if truthy pfp && !dirExists then [Event.makedirs (pfp.getD "")] else []
  (mkEv ++ [Event.buildModel hyperspace, Event.plotFile filename hyperspace,
            Event.clearSession, Event.delModel],
   ⟨Option.none⟩)

/-- Lines 104-125: the fixed demo configuration `space_base_demo_to_plot`. -/
def space_base_demo_to_plot : Config :=
  [ ("lr_rate_mult", PlainVal.num 1),
    ("l2_weight_reg_mult", PlainVal.num 1),
    ("batch_size", PlainVal.num 300),
    ("optimizer", PlainVal.str "Nadam"),
    ("coarse_labels_weight", PlainVal.num (2/10)),
    ("conv_dropout_drop_proba", PlainVal.num (175/1000)),
    ("fc_dropout_drop_proba", PlainVal.num (3/10)),
    ("use_BN", PlainVal.bool true),
    ("first_conv", PlainVal.num 4),
    ("residual", PlainVal.num 4),
    ("conv_hiddn_units_mult", PlainVal.num 1),
    ("nb_conv_pool_layers", PlainVal.num 3),
    ("conv_pool_res_start_idx", PlainVal.num 0),
    ("pooling_type", PlainVal.str "inception"),
    ("conv_kernel_size", PlainVal.num 3),
    ("res_conv_kernel_size", PlainVal.num 3),
    ("fc_units_1_mult", PlainVal.num 1),
    ("one_more_fc", PlainVal.num 1),
    ("activation", PlainVal.str "elu") ]

/-- Lines 102-126: `plot_base_model` plots the demo configuration. -/
def plot_base_model (pfp : Option String) (dirExists : Bool) : List Event :=
  (plot pfp dirExists space_base_demo_to_plot "model_demo" ⟨Option.none⟩).1

/-- Lines 129-138: `plot_best_model`.  The best-hyperspace query
(`load_best_hyperspace`, in `utils.py`, not under src/) is modelled from the
spec as an optional Configuration argument: none when no ok-status trial has
been persisted yet.  With none it only logs and returns; otherwise it logs,
dumps the configuration as JSON and plots it. -/
def plot_best_model (pfp : Option String) (dirExists : Bool)
    (bestSpace : Option Config) : List Event :=
  match bestSpace with
  | Option.none => [Event.info "No best model to plot. Continuing..."]
  | some s =>
    [Event.info "Best hyperspace yet:", Event.printJson s] ++
      (plot pfp dirExists s "model_best" ⟨Option.none⟩).1

/-! ## The main block (lines 158-201) -/

/-- The banner `'=' * 20 + ' Environment Variables ' + '=' * 20`. -/
def envHeader : String :=
  "==================== Environment Variables ===================="

/-- The inputs the main block reacts to: the process environment, GPU
availability, the plot folder path `model_dir(EXPERIMENT_NAME)` with the
existence of that folder, the outcome of the optimization step (ok with the
logged best, or an exception with its message and formatted traceback), and
the persisted best hyperspace. -/
structure MainInput where
  env : Env
  gpuAvailable : Bool
  pfp : Option String
  dirExists : Bool
  runOutcome : Except (String × String) String
  bestSpace : Option Config

/-- Line 168-169: warn when no GPU is available. -/
def gpuWarn (gpuAvailable : Bool) : List Event :=
  if gpuAvailable then [] else [Event.warning "GPUs are not available"]

/-- Lines 189-197: the try/except around `run_a_trial`: on success the best
is logged, on an exception its message and traceback are logged and nothing
propagates. -/
def optimizeSection : Except (String × String) String → List Event
  | Except.ok b => [Event.info b, Event.info "\nOPTIMIZATION STEP COMPLETE.\n"]
  | Except.error (e, tb) => [Event.info e, Event.info tb]

/-- The trace of observable events of the `__main__` block, in program
order.  Two long informational banners are abridged (their quotes elided);
no claim depends on their exact text. -/
def mainTrace (inp : MainInput) : List Event :=
  [Event.debug envHeader] ++
  (inp.env.map (fun kv => Event.debug (kv.1 ++ ": " ++ kv.2)) ++
  (gpuWarn inp.gpuAvailable ++
  ([Event.info "Plotting a demo model that would represent a quite normal model (or a bit more huge), and then the best model..."] ++
  (plot_base_model inp.pfp inp.dirExists ++
  ([Event.info "Now, we train many models, one after the other. Note that hyperopt has support for cloud distributed training using MongoDB.",
    Event.info "\nYour results will be saved in the folder named results. You can sort that alphabetically and take the greatest one. As you run the optimization, results are consinuously saved into a results.pkl file, too. Re-running optimize.py will resume the meta-optimization.\n",
    Event.info "OPTIMIZING NEW MODEL:"] ++
  (optimizeSection inp.runOutcome ++
  ([Event.info "PLOTTING BEST MODEL:"] ++
  plot_best_model inp.pfp inp.dirExists inp.bestSpace)))))))

/-! ## Helper lemmas on the search loop and the best-record query -/

theorem searchLoop_length (eval : Config → Except String ℚ) (cand : ℕ → Config) :
    ∀ (n : ℕ) (store : List TrialResult),
      (searchLoop eval cand n store).length = store.length + n := by
  intro n
  induction n with
  | zero => intro store; simp [searchLoop]
  | succ k ih =>
    intro store
    rw [searchLoop, ih]
    simp
    omega

theorem searchLoop_all (eval : Config → Except String ℚ) (cand : ℕ → Config)
    (P : TrialResult → Prop) (hP : ∀ c, P (runTrial eval c)) :
    ∀ (n : ℕ) (store : List TrialResult), (∀ r ∈ store, P r) →
      ∀ r ∈ searchLoop eval cand n store, P r := by
  intro n
  induction n with
  | zero => intro store hs; simpa [searchLoop] using hs
  | succ k ih =>
    intro store hs
    rw [searchLoop]
    apply ih
    intro r hr
    rcases List.mem_append.mp hr with h1 | h2
    · exact hs r h1
    · rw [List.mem_singleton] at h2
      subst h2
      exact hP _

theorem foldl_bestStep_of_all_failed :
    ∀ (store : List TrialResult), (∀ r ∈ store, r.ok = false) →
      ∀ b, store.foldl bestStep b = b := by
  intro store
  induction store with
  | nil => intro _ b; rfl
  | cons r t ih =>
    intro h b
    have hr : r.ok = false := h r (List.mem_cons_self r t)
    have ht : ∀ x ∈ t, x.ok = false := fun x hx => h x (List.mem_cons_of_mem r hx)
    simp only [List.foldl_cons]
    rw [show bestStep b r = b by simp [bestStep, hr]]
    exact ih ht b

theorem best_none_of_all_failed (store : List TrialResult)
    (h : ∀ r ∈ store, r.ok = false) : best store = Option.none :=
  foldl_bestStep_of_all_failed store h Option.none

theorem runTrial_config (eval : Config → Except String ℚ) (c : Config) :
    (runTrial eval c).config = c := by
  unfold runTrial
  cases eval c <;> rfl

theorem runTrial_error (eval : Config → Except String ℚ) (c : Config)
    (m : String) (h : eval c = Except.error m) :
    runTrial eval c = ⟨c, false, Option.none, some m⟩ := by
  simp [runTrial, h]

/-! ## Claim theorems -/

/-- C1: in every run, mixed or not, each configuration for which the
evaluator raises has its exception caught inside the failure boundary and
recorded as a failed TrialResult carrying the diagnostic text, nothing
propagates, and the loop always completes all `n` requested iterations; in
particular, when the evaluator raises for every configuration, a
`max_evals = 5` run still completes all 5 trials, persists 5 failed results,
and yields no BestRecord. -/
theorem C1_failure_containment (eval : Config → Except String ℚ)
    (cand : ℕ → Config) (n : ℕ) :
    (searchLoop eval cand n []).length = n ∧
    (∀ r ∈ searchLoop eval cand n [], ∀ m, eval r.config = Except.error m →
       r.ok = false ∧ r.diag = some m) ∧
    ((∀ c, ∃ m, eval c = Except.error m) →
       (searchLoop eval cand 5 []).length = 5 ∧
       (∀ r ∈ searchLoop eval cand 5 [],
          r.ok = false ∧ ∃ m, eval r.config = Except.error m ∧ r.diag = some m) ∧
       best (searchLoop eval cand 5 []) = Option.none) := by
  refine ⟨by simpa using searchLoop_length eval cand n [], ?_, ?_⟩
  · refine searchLoop_all eval cand _ ?_ n [] ?_
    · intro c m hm
      rw [runTrial_config] at hm
      rw [runTrial_error eval c m hm]
      exact ⟨rfl, rfl⟩
    · intro r hr
      cases hr
  · intro hall
    have h5 : ∀ r ∈ searchLoop eval cand 5 [],
        r.ok = false ∧ ∃ m, eval r.config = Except.error m ∧ r.diag = some m := by
      refine searchLoop_all eval cand _ ?_ 5 [] ?_
      · intro c
        obtain ⟨m, hm⟩ := hall c
        rw [runTrial_error eval c m hm]
        exact ⟨rfl, m, hm, rfl⟩
      · intro r hr
        cases hr
    exact ⟨by simpa using searchLoop_length eval cand 5 [], h5,
           best_none_of_all_failed _ (fun r hr => (h5 r hr).1)⟩

/-- Witness for C1: a mixed run (an evaluator raising exactly on the empty
configuration, candidates alternating between raising and succeeding ones)
in which the raising trial is recorded failed with its diagnostic, and the
all-raising `max_evals = 5` run with its empty best. -/
theorem C1_witness :
    ((⟨[], false, Option.none, some "boom"⟩ : TrialResult).ok = false ∧
     (⟨[], false, Option.none, some "boom"⟩ : TrialResult).diag = some "boom") ∧
    ((searchLoop (fun _ => Except.error "boom") (fun _ => []) 5 []).length = 5 ∧
     (∀ r ∈ searchLoop (fun _ => Except.error "boom") (fun _ => []) 5 [],
        r.ok = false ∧
        ∃ m, (fun _ : Config => (Except.error "boom" : Except String ℚ)) r.config =
               Except.error m ∧ r.diag = some m) ∧
     best (searchLoop (fun _ => Except.error "boom") (fun _ => []) 5 []) =
       Option.none) :=
  ⟨(C1_failure_containment
      (fun c => if c.isEmpty then Except.error "boom" else Except.ok 0)
      (fun i => if i % 2 = 0 then [] else [("k", PlainVal.num 1)]) 4).2.1
      ⟨[], false, Option.none, some "boom"⟩ (by decide) "boom" rfl,
   (C1_failure_containment (fun _ => Except.error "boom") (fun _ => []) 5).2.2
      (fun _ => ⟨"boom", rfl⟩)⟩

/-- C2: the run is bounded purely by an evaluation count: `run_a_trial`
passes `max_evals = int(MAX_EVALS)` to the optimizer, `5` when
`HKS_MAX_EVALS` is absent and the parsed integer when it is set, and the
search loop performs exactly that many further evaluations, with no other
stopping condition. -/
theorem C2_max_evals_bound :
    (∀ env : Env, env.lookup "HKS_MAX_EVALS" = Option.none →
       run_a_trial env = Except.ok ⟨"optimize_cnn", space, "tpe.suggest", 5⟩) ∧
    (∀ (env : Env) (s : String) (n : ℤ), env.lookup "HKS_MAX_EVALS" = some s →
       pyIntOfString? s = some n →
       run_a_trial env = Except.ok ⟨"optimize_cnn", space, "tpe.suggest", n⟩) ∧
    (∀ (eval : Config → Except String ℚ) (cand : ℕ → Config) (n : ℕ)
       (store : List TrialResult),
       (searchLoop eval cand n store).length = store.length + n) := by
  refine ⟨?_, ?_, searchLoop_length⟩
  · intro env h
    simp [run_a_trial, MAX_EVALS, h, pyInt, Except.map]
  · intro env s n h1 h2
    simp [run_a_trial, MAX_EVALS, h1, pyInt, h2, Except.map]

/-- Witness for C2: an absent `HKS_MAX_EVALS` yields 5, a set one its parsed
value. -/
theorem C2_witness :
    run_a_trial [] = Except.ok ⟨"optimize_cnn", space, "tpe.suggest", 5⟩ ∧
    run_a_trial [("HKS_MAX_EVALS", "7")] =
      Except.ok ⟨"optimize_cnn", space, "tpe.suggest", 7⟩ :=
  ⟨C2_max_evals_bound.1 [] rfl,
   C2_max_evals_bound.2.1 [("HKS_MAX_EVALS", "7")] "7" 7 rfl (by decide)⟩

/-- C3: the main block logs every environment variable, warns when no GPU is
available, logs an optimization-step exception message and traceback without
aborting (the trace always ends with the plot-best-model section, which dumps
the best configuration as structured JSON when one exists). -/
theorem C3_main_logging (inp : MainInput) :
    (∀ kv ∈ inp.env, Event.debug (kv.1 ++ ": " ++ kv.2) ∈ mainTrace inp) ∧
    (inp.gpuAvailable = false →
       Event.warning "GPUs are not available" ∈ mainTrace inp) ∧
    (∀ s, inp.bestSpace = some s → Event.printJson s ∈ mainTrace inp) ∧
    (∀ e tb, inp.runOutcome = Except.error (e, tb) →
       Event.info e ∈ mainTrace inp ∧ Event.info tb ∈ mainTrace inp) ∧
    (∃ l, mainTrace inp =
       l ++ ([Event.info "PLOTTING BEST MODEL:"] ++
             plot_best_model inp.pfp inp.dirExists inp.bestSpace)) := by
  refine ⟨?_, ?_, ?_, ?_, ?_⟩
  · intro kv hkv
    simp only [mainTrace]
    exact List.mem_append_right _ (List.mem_append_left _ (List.mem_map_of_mem _ hkv))
  · intro h
    simp only [mainTrace, gpuWarn, h, if_false]
    exact List.mem_append_right _ (List.mem_append_right _
      (List.mem_append_left _ (List.mem_cons_self _ _)))
  · intro s hs
    simp only [mainTrace, hs, plot_best_model]
    refine List.mem_append_right _ (List.mem_append_right _ (List.mem_append_right _
      (List.mem_append_right _ (List.mem_append_right _ (List.mem_append_right _
        (List.mem_append_right _ (List.mem_append_right _ ?_)))))))
    exact List.mem_append_left _ (List.mem_cons_of_mem _ (List.mem_cons_self _ _))
  · intro e tb h
    simp only [mainTrace, h, optimizeSection]
    constructor
    · refine List.mem_append_right _ (List.mem_append_right _ (List.mem_append_right _
        (List.mem_append_right _ (List.mem_append_right _ (List.mem_append_right _
          (List.mem_append_left _ ?_))))))
      exact List.mem_cons_self _ _
    · refine List.mem_append_right _ (List.mem_append_right _ (List.mem_append_right _
        (List.mem_append_right _ (List.mem_append_right _ (List.mem_append_right _
          (List.mem_append_left _ ?_))))))
      exact List.mem_cons_of_mem _ (List.mem_cons_self _ _)
  · refine ⟨[Event.debug envHeader] ++
      (inp.env.map (fun kv => Event.debug (kv.1 ++ ": " ++ kv.2)) ++
      (gpuWarn inp.gpuAvailable ++
      ([Event.info "Plotting a demo model that would represent a quite normal model (or a bit more huge), and then the best model..."] ++
      (plot_base_model inp.pfp inp.dirExists ++
      ([Event.info "Now, we train many models, one after the other. Note that hyperopt has support for cloud distributed training using MongoDB.",
        Event.info "\nYour results will be saved in the folder named results. You can sort that alphabetically and take the greatest one. As you run the optimization, results are consinuously saved into a results.pkl file, too. Re-running optimize.py will resume the meta-optimization.\n",
        Event.info "OPTIMIZING NEW MODEL:"] ++
      optimizeSection inp.runOutcome))))), ?_⟩
    simp only [mainTrace, List.append_assoc]

/-- Witness for C3: a concrete input with no GPU, a raising optimization
step, and one environment entry. -/
theorem C3_witness :
    Event.warning "GPUs are not available" ∈
      mainTrace ⟨[("PATH", "/usr/bin")], false, Option.none, false,
                 Except.error ("boom", "tb"), Option.none⟩ ∧
    Event.info "boom" ∈
      mainTrace ⟨[("PATH", "/usr/bin")], false, Option.none, false,
                 Except.error ("boom", "tb"), Option.none⟩ ∧
    Event.debug ("PATH" ++ ": " ++ "/usr/bin") ∈
      mainTrace ⟨[("PATH", "/usr/bin")], false, Option.none, false,
                 Except.error ("boom", "tb"), Option.none⟩ :=
  ⟨(C3_main_logging _).2.1 rfl,
   ((C3_main_logging _).2.2.2.1 "boom" "tb" rfl).1,
   (C3_main_logging _).1 ("PATH", "/usr/bin") (List.mem_cons_self _ _)⟩

/-- C4: the declared space contains a continuous uniform parameter, a
log-uniform parameter, a discrete quantized parameter, a categorical choice
over a fixed ordered list, and the three nested conditional choices
`first_conv`, `residual` and `one_more_fc`, each of which offers `None`
alongside a nested distribution. -/
theorem C4_space_distribution_kinds :
    (("coarse_labels_weight", Hp.uniform "coarse_labels_weight" (1/10) (7/10)) ∈ space) ∧
    (("lr_rate_mult", Hp.loguniform "lr_rate_mult" (-(1/2)) (1/2)) ∈ space) ∧
    (("batch_size", Hp.quniform "batch_size" 100 450 5) ∈ space) ∧
    (("optimizer", Hp.choice "optimizer"
        [Hp.lit (HpVal.str "Adam"), Hp.lit (HpVal.str "Nadam"),
         Hp.lit (HpVal.str "RMSprop")]) ∈ space) ∧
    (("first_conv", Hp.choice "first_conv"
        [Hp.lit HpVal.none,
         Hp.choice "first_conv_size" [Hp.lit (HpVal.int 3), Hp.lit (HpVal.int 4)]]) ∈ space) ∧
    (("residual", Hp.choice "residual"
        [Hp.lit HpVal.none,
         Hp.quniform "residual_units" (1 - 499/1000) (4 + 499/1000) 1]) ∈ space) ∧
    (("one_more_fc", Hp.choice "one_more_fc"
        [Hp.lit HpVal.none,
         Hp.loguniform "fc_units_2_mult" (-(6/10)) (6/10)]) ∈ space) := by
  refine ⟨?_, ?_, ?_, ?_, ?_, ?_, ?_⟩ <;> simp [space]

/-- C5 counterexample: the claim reads log-uniform values as falling in
`[lower, upper]`, but a log-uniform sample is the exponential of the drawn
exponent: for `l2_weight_reg_mult` the exponent bound `1.3` itself yields
the sample `exp 1.3`, which exceeds `1.3`. -/
theorem C5_counterexample :
    (("l2_weight_reg_mult", Hp.loguniform "l2_weight_reg_mult" (-(13/10)) (13/10)) ∈ space) ∧
    Samples (Hp.loguniform "l2_weight_reg_mult" (-(13/10)) (13/10))
      (SampleVal.num (Real.exp ((13/10 : ℚ) : ℝ))) ∧
    ((13/10 : ℚ) : ℝ) < Real.exp ((13/10 : ℚ) : ℝ) := by
  refine ⟨by simp [space], Samples.loguniform (by push_cast; norm_num) le_rfl, ?_⟩
  have h := Real.add_one_le_exp ((13/10 : ℚ) : ℝ)
  linarith

/-- C5 (amended): every value sampled from a parameter declared in `space`
lies within that parameter's declared bounds, where the declared bounds of a
log-uniform parameter are the exponentials of its exponent bounds: uniform
values lie in `[lower, upper]`, log-uniform values in
`[exp lower, exp upper]`, quantized values are integer multiples of the step
inside `[lower, upper]` (so `residual_units` over `quniform(0.501, 4.499, 1)`
is one of 1, 2, 3, 4), and categorical values are among the declared
options. -/
theorem C5_sampled_values_in_declared_bounds (k : String) (p : Hp)
    (hmem : (k, p) ∈ space) (v : SampleVal) (hs : Samples p v) : InBounds p v :=
  samples_inBounds_of_good (good_of_mem_space k p hmem) hs

/-- Witness for C5 at the uniform parameter `coarse_labels_weight` and the
concrete sample 0.2. -/
theorem C5_witness :
    InBounds (Hp.uniform "coarse_labels_weight" (1/10) (7/10))
      (SampleVal.num ((2 : ℝ)/10)) :=
  C5_sampled_values_in_declared_bounds "coarse_labels_weight" _ (by simp [space]) _
    (Samples.uniform (by push_cast; norm_num) (by push_cast; norm_num))

/-- C6: with no persisted best record (`best` of an all-failed store is none)
`plot_best_model` only logs that there is no best model and returns without
plotting and without raising; with a best record it logs, dumps the
configuration as JSON and plots it. -/
theorem C6_plot_best_model_none :
    (∀ (pfp : Option String) (d : Bool),
       plot_best_model pfp d Option.none =
         [Event.info "No best model to plot. Continuing..."]) ∧
    (∀ store : List TrialResult, (∀ r ∈ store, r.ok = false) →
       best store = Option.none) ∧
    (∀ (pfp : Option String) (d : Bool) (s : Config),
       plot_best_model pfp d (some s) =
         [Event.info "Best hyperspace yet:", Event.printJson s] ++
           (plot pfp d s "model_best" ⟨Option.none⟩).1 ∧
       Event.plotFile (plotFilename pfp "model_best") s ∈
         plot_best_model pfp d (some s)) := by
  refine ⟨fun _ _ => rfl, best_none_of_all_failed, ?_⟩
  intro pfp d s
  refine ⟨rfl, ?_⟩
  simp [plot_best_model, plot]

/-- Witness for C6: the empty-store best is none and the no-best trace is the
single log line. -/
theorem C6_witness :
    plot_best_model Option.none true Option.none =
      [Event.info "No best model to plot. Continuing..."] ∧
    best [⟨[], false, Option.none, some "err"⟩] = Option.none :=
  ⟨C6_plot_best_model_none.1 Option.none true,
   C6_plot_best_model_none.2.1 [⟨[], false, Option.none, some "err"⟩] (by decide)⟩

/-- C7: the output path of `plot` is `PLOT_FOLDER_PATH/<name>.png` when a
plot folder path is configured and `<name>.png` otherwise, and the whole
effect of `plot` is folder creation, model build, the diagram write and
backend cleanup: nothing feeds back into the search loop. -/
theorem C7_plot_filename (p : String) (hne : p ≠ "") (fnamePre : String)
    (d : Bool) (h : Config) (st : BackendState) :
    plotFilename (some p) fnamePre = p ++ "/" ++ fnamePre ++ ".png" ∧
    plotFilename Option.none fnamePre = fnamePre ++ ".png" ∧
    (plot (some p) d h fnamePre st).1 =
      (if d then [] else [Event.makedirs p]) ++
        [Event.buildModel h, Event.plotFile (p ++ "/" ++ fnamePre ++ ".png") h,
         Event.clearSession, Event.delModel] := by
  have htr : truthy (some p) = true := by simp [truthy, hne]
  refine ⟨by simp [plotFilename, htr], rfl, ?_⟩
  cases d <;> simp [plot, plotFilename, htr]

/-- Witness for C7 at a nonempty plot folder path. -/
theorem C7_witness :
    plotFilename (some "plots") "model_best" =
      "plots" ++ "/" ++ "model_best" ++ ".png" :=
  (C7_plot_filename "plots" (by decide) "model_best" true [] ⟨Option.none⟩).1

/-- C8: two environments that agree everywhere except on `HKS_ENVIRONMENT`
produce the same `run_a_trial` invocation (same objective, space, algorithm
and max_evals) and the same `MAX_EVALS`: the execution-environment tag does
not influence search semantics. -/
theorem C8_environment_tag_noninterference (envA envB : Env)
    (h : ∀ k, k ≠ "HKS_ENVIRONMENT" → envA.lookup k = envB.lookup k) :
    run_a_trial envA = run_a_trial envB ∧ MAX_EVALS envA = MAX_EVALS envB := by
  have hm : envA.lookup "HKS_MAX_EVALS" = envB.lookup "HKS_MAX_EVALS" :=
    h "HKS_MAX_EVALS" (by decide)
  have h2 : MAX_EVALS envA = MAX_EVALS envB := by simp [MAX_EVALS, hm]
  exact ⟨by simp [run_a_trial, h2], h2⟩

/-- Witness for C8: an environment that only sets `HKS_ENVIRONMENT` behaves
like the empty environment. -/
theorem C8_witness :
    run_a_trial [("HKS_ENVIRONMENT", "local")] = run_a_trial [] ∧
    MAX_EVALS [("HKS_ENVIRONMENT", "local")] = MAX_EVALS [] :=
  C8_environment_tag_noninterference [("HKS_ENVIRONMENT", "local")] []
    (by
      intro k hk
      have hb : (k == "HKS_ENVIRONMENT") = false := beq_eq_false_iff_ne.mpr hk
      simp [List.lookup, hb])

/-- C9: a set but unparseable `HKS_MAX_EVALS` is kept as a string in
`MAX_EVALS` and makes the `int(MAX_EVALS)` conversion inside `run_a_trial`
raise `ValueError`; an unset variable defaults to the integer 5, whose
conversion cannot fail. -/
theorem C9_int_conversion (env : Env) :
    (∀ s, env.lookup "HKS_MAX_EVALS" = some s → MAX_EVALS env = PyVal.str s ∧
       (pyIntOfString? s = Option.none →
         run_a_trial env =
           Except.error ("invalid literal for int() with base 10: " ++ s))) ∧
    (env.lookup "HKS_MAX_EVALS" = Option.none → MAX_EVALS env = PyVal.int 5 ∧
       run_a_trial env = Except.ok ⟨"optimize_cnn", space, "tpe.suggest", 5⟩) := by
  constructor
  · intro s hs
    have hm : MAX_EVALS env = PyVal.str s := by simp [MAX_EVALS, hs]
    refine ⟨hm, fun hp => ?_⟩
    simp [run_a_trial, hm, pyInt, hp, Except.map]
  · intro hnone
    have hm : MAX_EVALS env = PyVal.int 5 := by simp [MAX_EVALS, hnone]
    exact ⟨hm, by simp [run_a_trial, hm, pyInt, Except.map]⟩

/-- Witness for C9: `HKS_MAX_EVALS = "five"` raises at the conversion. -/
theorem C9_witness :
    run_a_trial [("HKS_MAX_EVALS", "five")] =
      Except.error ("invalid literal for int() with base 10: " ++ "five") :=
  ((C9_int_conversion [("HKS_MAX_EVALS", "five")]).1 "five" (by decide)).2 (by decide)

/-- C10: every call to `plot` ends, after the diagram write, with the
backend-session clear and the deletion of the constructed model, and the
backend state it returns holds no model. -/
theorem C10_plot_clears_backend (pfp : Option String) (d : Bool) (h : Config)
    (fnamePre : String) (st : BackendState) :
    (plot pfp d h fnamePre st).2.model = Option.none ∧
    (plot pfp d h fnamePre st).1 =
      (if truthy pfp && !d then [Event.makedirs (pfp.getD "")] else []) ++
        [Event.buildModel h, Event.plotFile (plotFilename pfp fnamePre) h,
         Event.clearSession, Event.delModel] :=
  ⟨rfl, rfl⟩
